import Mathlib

/-
  Verification development for the embassy-sync concurrency primitives:
  the publish/subscribe broadcast channel (src/embassy-sync/src/pubsub/),
  the fixed-capacity deque it consumes (src/embassy-sync/src/deque.rs),
  the intrusive doubly-linked list core
  (src/embassy-sync/src/intrusive_list/{node,raw,cursor}.rs) and the
  multi-waker registrar (src/embassy-sync/src/waitqueue/multi_waker.rs).

  Machine integers (u64 message ids, usize counters) are modelled as Nat.
  Subtractions that in Rust would wrap on underflow are guarded by the
  channel invariants stated as hypotheses of the theorems (queue length
  bounded by the message counter, every pending count positive), so Nat
  truncated subtraction agrees with the u64/usize semantics on every state
  the theorems speak about.  Rust panics (panic, unreachable, unwrap of
  None or Err) are modelled by Option results, none meaning a panic.
-/

section Deque

variable {α : Type}

/-- DequeRef::pop_front (deque.rs lines 241 to 247): None when empty,
otherwise the front element and the remaining queue.  The ring buffer is
modelled by the list of its elements front first; the modular index
arithmetic of deque.rs is unreachable in the guarded operations used here
because is_empty and is_full are checked first. -/
def DequeRef.pop_front (q : List α) : Option (α × List α) :=
  match q with
  | [] => none
  | x :: xs => some (x, xs)

/-- DequeRef::push_back (deque.rs lines 273 to 280): rejects the item when
the deque is full (len equals the capacity), otherwise appends at the back. -/
def DequeRef.push_back (CAP : Nat) (q : List α) (item : α) : Except α (List α) :=
  if q.length = CAP then Except.error item else Except.ok (q ++ [item])

end Deque

section PubSub

variable {T : Type}

/-- WaitResult (pubsub/mod.rs lines 306 to 312). -/
inductive WaitResult (T : Type) where
  | Lagged (n : Nat)
  | Message (m : T)
deriving DecidableEq

/-- PubSubState (pubsub/mod.rs lines 252 to 263).  The queue holds pairs of
a message and the countdown of subscribers yet to read it. -/
structure PubSubState (T : Type) where
  next_message_id : Nat
  subscriber_count : Nat
  publisher_count : Nat
  queue : List (T × Nat)
deriving DecidableEq

namespace PubSubChannel

/-- PubSubChannel::new / PubSubState::new (pubsub/mod.rs lines 83 and 281):
construction performs no capacity check at all (the const assertion for
N greater than zero in Deque::new, deque.rs line 41, is commented out),
so a zero-capacity channel is constructible. -/
def new : PubSubState T :=
  { next_message_id := 0, subscriber_count := 0, publisher_count := 0, queue := [] }

/-- PubSubChannel::subscriber (pubsub/mod.rs lines 93 to 101): increments
the subscriber count and hands the current next_message_id to the new
subscriber as its cursor. -/
def subscriber (s : PubSubState T) : Nat × PubSubState T :=
  (s.next_message_id, { s with subscriber_count := s.subscriber_count + 1 })

/-- PubSubChannel::get_message (pubsub/mod.rs lines 163 to 195).
The clone operation of the message type is passed explicitly as cl so that
returning the original and returning a clone are distinguishable.
Result: the WaitResult (none meaning no message available yet), the new
channel state, and whether the publisher wakers were woken. -/
def get_message (cl : T → T) (s : PubSubState T) (message_id : Nat) :
    Option (WaitResult T) × PubSubState T × Bool :=
  let start_id := s.next_message_id - s.queue.length
  if message_id < start_id then
    (some (WaitResult.Lagged (start_id - message_id)), s, false)
  else
    let idx := message_id - start_id
    if h : idx < s.queue.length then
      let e := s.queue.get ⟨idx, h⟩
      if idx = 0 ∧ e.2 - 1 = 0 then
        (some (WaitResult.Message e.1), { s with queue := s.queue.tail }, true)
      else
        (some (WaitResult.Message (cl e.1)),
          { s with queue := s.queue.set idx (e.1, e.2 - 1) }, false)
    else
      (none, s, false)

/-- PubSubChannel::try_publish_unchecked (pubsub/mod.rs lines 117 to 137).
Result: Ok or Err carrying the rejected message, the new state, and whether
the subscriber wakers were woken.  The outer none models the unwrap after
push_back, which cannot fire because is_full was checked just before. -/
def try_publish_unchecked (CAP : Nat) (s : PubSubState T) (message : T) :
    Option (Except T Unit × PubSubState T × Bool) :=
  if s.subscriber_count = 0 then
    some (Except.ok (), s, false)
  else if s.queue.length = CAP then
    some (Except.error message, s, false)
  else
    match DequeRef.push_back CAP s.queue (message, s.subscriber_count) with
    | Except.error _ => none
    | Except.ok q =>
        some (Except.ok (),
          { s with queue := q, next_message_id := s.next_message_id + 1 }, true)

/-- PubSubChannel::publish_immediate (pubsub/mod.rs lines 146 to 161):
pop the front when full, then publish through the unchecked path and
unwrap the result; none models the panic of that unwrap. -/
def publish_immediate (CAP : Nat) (s : PubSubState T) (message : T) :
    Option (PubSubState T × Bool) :=
  let s1 :=
    if s.queue.length = CAP then
      match DequeRef.pop_front s.queue with
      | none => s
      | some (_, q) => { s with queue := q }
    else s
  match try_publish_unchecked CAP s1 message with
  | none => none
  | some (Except.error _, _, _) => none
  | some (Except.ok _, s2, woke) => some (s2, woke)

/-- The pop-while-front-count-is-zero loop of unregister_subscriber
(pubsub/mod.rs lines 211 to 219); the Bool is the wake_publishers flag. -/
def popZeros : List (T × Nat) → List (T × Nat) × Bool
  | [] => ([], false)
  | e :: rest => if e.2 = 0 then ((popZeros rest).1, true) else (e :: rest, false)

/-- PubSubChannel::unregister_subscriber (pubsub/mod.rs lines 197 to 226).
Note line 204: the decrement loop runs only when the subscriber cursor is
at least start_id; a subscriber that lagged behind the whole queue skips it.
Result: the new state and whether the publisher wakers were woken. -/
def unregister_subscriber (s : PubSubState T) (subscriber_next_message_id : Nat) :
    PubSubState T × Bool :=
  let s1 : PubSubState T := { s with subscriber_count := s.subscriber_count - 1 }
  let start_id := s1.next_message_id - s1.queue.length
  if start_id ≤ subscriber_next_message_id then
    let idx := subscriber_next_message_id - start_id
    let q1 := s1.queue.take idx ++ (s1.queue.drop idx).map (fun e => (e.1, e.2 - 1))
    let p := popZeros q1
    ({ s1 with queue := p.1 }, p.2)
  else
    (s1, false)

end PubSubChannel

end PubSub

section IntrusiveNodes

/-- NodeLinks (intrusive_list/node.rs lines 57 to 71).  Nodes are
identified by Nat ids; the address of a node in the source is its id here. -/
inductive NodeLinks where
  | Unlinked
  | Single
  | Head (next : Nat)
  | Tail (prev : Nat)
  | Full (prev next : Nat)
deriving DecidableEq

namespace NodeLinks

/-- NodeLinks::next (node.rs lines 82 to 87). -/
def next : NodeLinks → Option Nat
  | Head n => some n
  | Full _ n => some n
  | _ => none

/-- NodeLinks::prev (node.rs lines 146 to 151). -/
def prev : NodeLinks → Option Nat
  | Tail p => some p
  | Full p _ => some p
  | _ => none

/-- NodeLinks::set_next (node.rs lines 107 to 121); none on Unlinked models
the panic. -/
def set_next : NodeLinks → Nat → Option NodeLinks
  | Unlinked, _ => none
  | Single, n => some (Head n)
  | Tail p, n => some (Full p n)
  | Head _, n => some (Head n)
  | Full p _, n => some (Full p n)

/-- NodeLinks::set_prev (node.rs lines 90 to 104); none on Unlinked models
the panic. -/
def set_prev : NodeLinks → Nat → Option NodeLinks
  | Unlinked, _ => none
  | Single, n => some (Tail n)
  | Head nx, n => some (Full n nx)
  | Tail _, n => some (Tail n)
  | Full _ nx, n => some (Full n nx)

/-- NodeLinks::clear_prev (node.rs lines 124 to 132); none models the
panics on Unlinked, Single and Head. -/
def clear_prev : NodeLinks → Option NodeLinks
  | Tail _ => some Single
  | Full _ nx => some (Head nx)
  | _ => none

/-- NodeLinks::clear_next (node.rs lines 135 to 143); none models the
panics on Unlinked, Single and Tail. -/
def clear_next : NodeLinks → Option NodeLinks
  | Head _ => some Single
  | Full p _ => some (Tail p)
  | _ => none

end NodeLinks

/-- The link states of all nodes, indexed by node id. -/
def LinksMap := Nat → NodeLinks

/-- Write the link state of one node. -/
def setLink (L : LinksMap) (n : Nat) (v : NodeLinks) : LinksMap :=
  fun m => if m = n then v else L m

namespace NodeRef

/-- NodeRef::next (node.rs lines 235 to 237). -/
def next (L : LinksMap) (a : Nat) : Option Nat :=
  (L a).next

/-- NodeRef::prev (node.rs lines 240 to 242).  The source body is
self.get_links().next() — it reads the NEXT pointer, not the previous one. -/
def prev (L : LinksMap) (a : Nat) : Option Nat :=
  (L a).next

/-- NodeRef::set_next (node.rs lines 245 to 247). -/
def set_next (L : LinksMap) (a b : Nat) : Option LinksMap :=
  ((L a).set_next b).map (setLink L a)

/-- NodeRef::set_prev (node.rs lines 250 to 252).  The source body is
self.get_links_mut().set_next(node) — it writes the NEXT pointer. -/
def set_prev (L : LinksMap) (a b : Nat) : Option LinksMap :=
  ((L a).set_next b).map (setLink L a)

/-- NodeRef::clear_prev (node.rs lines 260 to 262). -/
def clear_prev (L : LinksMap) (a : Nat) : Option LinksMap :=
  ((L a).clear_prev).map (setLink L a)

/-- NodeRef::clear_next (node.rs lines 255 to 257). -/
def clear_next (L : LinksMap) (a : Nat) : Option LinksMap :=
  ((L a).clear_next).map (setLink L a)

/-- NodeRef::insert_after (node.rs lines 301 to 320), including the call to
the mis-wired set_prev above. -/
def insert_after (L : LinksMap) (a node : Nat) : Option LinksMap := do
  let L1 ← set_prev L node a
  match L1 a with
  | NodeLinks.Unlinked => none
  | NodeLinks.Single => some (setLink L1 a (NodeLinks.Head node))
  | NodeLinks.Tail p => some (setLink L1 a (NodeLinks.Full p node))
  | NodeLinks.Head old_next => do
      let L2 := setLink L1 a (NodeLinks.Head node)
      let L3 ← set_prev L2 old_next node
      set_next L3 node old_next
  | NodeLinks.Full p old_next => do
      let L2 := setLink L1 a (NodeLinks.Full p node)
      let L3 ← set_prev L2 old_next node
      set_next L3 node old_next

/-- NodeRef::insert_before (node.rs lines 270 to 289), including the
mis-wired set_prev calls and the Single branch that makes self a Head. -/
def insert_before (L : LinksMap) (a node : Nat) : Option LinksMap := do
  let L1 ← set_next L node a
  match L1 a with
  | NodeLinks.Unlinked => none
  | NodeLinks.Single => some (setLink L1 a (NodeLinks.Head node))
  | NodeLinks.Head nx => some (setLink L1 a (NodeLinks.Full node nx))
  | NodeLinks.Tail old_prev => do
      let L2 := setLink L1 a (NodeLinks.Tail node)
      let L3 ← set_prev L2 old_prev node
      set_prev L3 node old_prev
  | NodeLinks.Full old_prev nx => do
      let L2 := setLink L1 a (NodeLinks.Full node nx)
      let L3 ← set_prev L2 old_prev node
      set_prev L3 node old_prev

/-- NodeRef::update_links (node.rs lines 322 to 324). -/
def update_links (L : LinksMap) (a : Nat) (v : NodeLinks) : NodeLinks × LinksMap :=
  (L a, setLink L a v)

/-- NodeRef::remove (node.rs lines 329 to 344): clear the links of the node
and stitch the neighbours; returns the old links.  none models a panic in
one of the neighbour updates. -/
def remove (L : LinksMap) (n : Nat) : Option (NodeLinks × LinksMap) :=
  let l := L n
  let L0 := setLink L n NodeLinks.Unlinked
  match l with
  | NodeLinks.Unlinked => some (l, L0)
  | NodeLinks.Single => some (l, L0)
  | NodeLinks.Head nx => (clear_prev L0 nx).map (fun L1 => (l, L1))
  | NodeLinks.Tail p => (clear_next L0 p).map (fun L1 => (l, L1))
  | NodeLinks.Full p nx => do
      let L1 ← set_prev L0 nx p
      let L2 ← set_next L1 p nx
      some (l, L2)

end NodeRef

/-- RawIntrusiveList (intrusive_list/raw.rs lines 3 to 11): length, the
optional head and tail ids, and the link states of all nodes. -/
structure RawIntrusiveList where
  len : Nat
  links : Option (Nat × Nat)
  nodes : LinksMap

namespace RawIntrusiveList

/-- RawIntrusiveList::new (raw.rs lines 14 to 16) with every node Unlinked. -/
def emptyList : RawIntrusiveList :=
  { len := 0, links := none, nodes := fun _ => NodeLinks.Unlinked }

/-- RawIntrusiveList::insert_tail (raw.rs lines 52 to 62). -/
def insert_tail (s : RawIntrusiveList) (n : Nat) : Option RawIntrusiveList :=
  let L := setLink s.nodes n NodeLinks.Single
  match s.links with
  | some (h, t) =>
      (NodeRef.insert_after L t n).map
        (fun L1 => { s with links := some (h, n), nodes := L1 })
  | none => some { s with links := some (n, n), nodes := L }

/-- RawIntrusiveList::insert_head (raw.rs lines 33 to 43). -/
def insert_head (s : RawIntrusiveList) (n : Nat) : Option RawIntrusiveList :=
  let L := setLink s.nodes n NodeLinks.Single
  match s.links with
  | some (h, t) =>
      (NodeRef.insert_before L h n).map
        (fun L1 => { s with links := some (n, t), nodes := L1 })
  | none => some { s with links := some (n, n), nodes := L }

/-- RawIntrusiveList::remove (raw.rs lines 64 to 106).  The Unlinked branch
zeroes the length and drops the head and tail pointers, then panics: with
debug assertions it is an explicit panic, without them it is the
unreachable macro, which also panics — modelled as none.  The len update is
the saturating decrement of line 104. -/
def remove (s : RawIntrusiveList) (n : Nat) : Option RawIntrusiveList := do
  let (l, L) ← NodeRef.remove s.nodes n
  match l with
  | NodeLinks.Unlinked => none
  | NodeLinks.Single => some { len := 0, links := none, nodes := L }
  | NodeLinks.Head nx =>
      match s.links with
      | none => none
      | some (_, t) => some { len := s.len - 1, links := some (nx, t), nodes := L }
  | NodeLinks.Tail p =>
      match s.links with
      | none => none
      | some (h, _) => some { len := s.len - 1, links := some (h, p), nodes := L }
  | NodeLinks.Full _ _ => some { s with len := s.len - 1, nodes := L }

/-- RawCursor::insert_tail (raw.rs lines 189 to 195): the raw insert plus
the length increment (cursor position tracking is not needed here). -/
def cursor_insert_tail (s : RawIntrusiveList) (n : Nat) : Option RawIntrusiveList :=
  (insert_tail s n).map (fun s1 => { s1 with len := s1.len + 1 })

end RawIntrusiveList

/-- Forward traversal following next pointers from a start node, bounded by
fuel steps. -/
def traverseNext (L : LinksMap) : Nat → Nat → List Nat
  | _, 0 => []
  | start, fuel + 1 =>
      start ::
        match NodeRef.next L start with
        | some nx => traverseNext L nx fuel
        | none => []

/-- The state built by the insert_tail test (intrusive_list/test.rs lines
61 to 91): four values 1,2,3,4 pushed at the tail of an empty list. -/
def c4_state : Option RawIntrusiveList := do
  let s1 ← RawIntrusiveList.cursor_insert_tail RawIntrusiveList.emptyList 1
  let s2 ← RawIntrusiveList.cursor_insert_tail s1 2
  let s3 ← RawIntrusiveList.cursor_insert_tail s2 3
  RawIntrusiveList.cursor_insert_tail s3 4

end IntrusiveNodes

section CursorModel

/-- Cursor (intrusive_list/cursor.rs lines 8 to 14): the separate index
counter and the current node.  The underlying non-generic list that
cursor.rs works over is absent from src; per the spec the nodes of a list
of length L form one chain, so the current node is modelled by its
position, 0 to L-1. -/
structure Cursor where
  index : Nat
  current : Option Nat
deriving DecidableEq

/-- SeekFrom (cursor.rs lines 482 to 487). -/
inductive SeekFrom where
  | Head (v : Nat)
  | Tail (v : Nat)
  | Current (v : Int)
deriving DecidableEq

namespace SeekFrom

/-- The comparison inside SeekFrom::find_min (cursor.rs lines 496 to 509):
whether candidate n replaces the current minimum mn. -/
def update : SeekFrom → SeekFrom → Bool
  | Head a, Head b => a < b
  | Head a, Tail b => a < b
  | Tail a, Head b => a < b
  | Tail a, Tail b => a < b
  | Current c, Head b => c.natAbs ≤ b
  | Current c, Tail b => c.natAbs ≤ b
  | Current c, Current b => c.natAbs < b.natAbs
  | Head a, Current c => a < c.natAbs
  | Tail a, Current c => a < c.natAbs

/-- SeekFrom::find_min (cursor.rs lines 491 to 517). -/
def find_min (l : List SeekFrom) : Option SeekFrom :=
  match l with
  | [] => none
  | x :: xs => some (xs.foldl (fun mn n => if update n mn then n else mn) x)

end SeekFrom

/-- Iterated application, for the step loops of Cursor::seek. -/
def iterateN (f : α → α) : Nat → α → α
  | 0, a => a
  | n + 1, a => iterateN f n (f a)

namespace Cursor

/-- Cursor::seek_head (cursor.rs lines 66 to 69) over a list of length L:
current becomes the head of the list, the index becomes 0. -/
def seek_head (L : Nat) (_c : Cursor) : Cursor :=
  { index := 0, current := if L = 0 then none else some 0 }

/-- Cursor::seek_tail (cursor.rs lines 72 to 75): current becomes the tail,
the index becomes the saturating decrement of the length. -/
def seek_tail (L : Nat) (_c : Cursor) : Cursor :=
  { index := L - 1, current := if L = 0 then none else some (L - 1) }

/-- Cursor::seek_next (cursor.rs lines 79 to 86): step to the next node,
wrapping to the head when there is none. -/
def seek_next (L : Nat) (c : Cursor) : Cursor :=
  match c.current with
  | some r => if r + 1 < L then { index := c.index + 1, current := some (r + 1) }
              else seek_head L c
  | none => seek_head L c

/-- Cursor::seek_prev (cursor.rs lines 90 to 97): step to the previous
node, wrapping to the tail when there is none; the index update is a
saturating decrement. -/
def seek_prev (L : Nat) (c : Cursor) : Cursor :=
  match c.current with
  | some r => if r = 0 then seek_tail L c
              else { index := c.index - 1, current := some (r - 1) }
  | none => seek_tail L c

/-- Cursor::min_seek (cursor.rs lines 100 to 117).  Note line 115: the
walk-from-the-tail candidate is written Head (len - index), not a Tail
value.  The getD replaces the unwrap of the source; find_min of a
three-element list is never none. -/
def min_seek (L : Nat) (c : Cursor) (index : Nat) : SeekFrom :=
  let diff_current : Int := (c.index : Int) - (index : Int)
  if index = 0 then SeekFrom.Head 0
  else if L ≤ index then SeekFrom.Tail 0
  else if diff_current = 0 then SeekFrom.Current 0
  else
    (SeekFrom.find_min
        [SeekFrom.Current diff_current, SeekFrom.Head index,
          SeekFrom.Head (L - index)]).getD (SeekFrom.Head 0)

/-- Cursor::seek (cursor.rs lines 123 to 144). -/
def seek (L : Nat) (c : Cursor) (index : Nat) : Cursor :=
  match min_seek L c index with
  | SeekFrom.Head v => iterateN (seek_next L) v (seek_head L c)
  | SeekFrom.Tail v => iterateN (seek_prev L) v (seek_tail L c)
  | SeekFrom.Current v =>
      if 0 ≤ v then iterateN (seek_next L) v.natAbs c
      else iterateN (seek_prev L) v.natAbs c

end Cursor

/-- Insertion of an element at a position of a list (the raw list insert
operations called by cursor.rs, absent from src; modelled from the spec:
inserting before the node at position i places the item at position i,
inserting after it places the item at position i plus one). -/
def insertAt : List α → Nat → α → List α
  | l, 0, a => a :: l
  | [], _ + 1, a => [a]
  | x :: xs, n + 1, a => x :: insertAt xs n a

namespace Cursor

/-- The loop of Cursor::inner_fold specialised to Cursor::position
(cursor.rs lines 271 to 296 and 426 to 443): visit elements from the
current node, breaking with the cursor index of the first element on which
the predicate holds, stopping at the tail.  Fuel bounds the loop; the
callers pass the list length, which suffices. -/
def positionLoop (vals : List α) (f : Nat → α → Bool) :
    Nat → Cursor → Option Nat × Cursor
  | 0, c => (none, c)
  | fuel + 1, c =>
      match c.current with
      | none => (none, c)
      | some r =>
          match vals.get? r with
          | none => (none, c)
          | some x =>
              if f c.index x then (some c.index, c)
              else if r + 1 = vals.length then (none, c)
              else positionLoop vals f fuel (seek_next vals.length c)

/-- Cursor::position via inner_fold (cursor.rs lines 275 to 296): when the
current node is unset it is first set to the head. -/
def position (vals : List α) (f : Nat → α → Bool) (c : Cursor) :
    Option Nat × Cursor :=
  let c1 := if c.current.isNone then
      { c with current := if vals.length = 0 then none else some 0 }
    else c
  if vals.length = 0 then (none, c1)
  else positionLoop vals f vals.length c1

/-- Cursor::insert (cursor.rs lines 168 to 207): index 0 inserts at the
head, index at least the length inserts at the tail, otherwise walk per
min_seek with one step less and insert after or before the current node.
Returns the resulting list of values. -/
def insert (vals : List α) (c : Cursor) (index : Nat) (item : α) : List α :=
  if index = 0 then item :: vals
  else if vals.length ≤ index then vals ++ [item]
  else
    let step :=
      match min_seek vals.length c index with
      | SeekFrom.Head v => (seek_head vals.length c, v, decide (v ≠ 0))
      | SeekFrom.Tail v => (seek_tail vals.length c, v, decide (v ≠ 0))
      | SeekFrom.Current v => (c, v.natAbs, decide (0 < v))
    let c2 :=
      if step.2.2 then iterateN (seek_next vals.length) (step.2.1 - 1) step.1
      else iterateN (seek_prev vals.length) (step.2.1 - 1) step.1
    match c2.current with
    | some r => if step.2.2 then insertAt vals (r + 1) item else insertAt vals r item
    | none => vals

/-- Cursor::insert_before (cursor.rs lines 215 to 238): find the first
element satisfying f by one scan from the head (a fresh cursor starts at
the head), then insert at the found position minus one (saturating), or at
the head when nothing matched.  Returns the list and the reported index. -/
def insert_before (vals : List α) (item : α) (f : Nat → α → α → Bool) :
    List α × Nat :=
  let c0 : Cursor := { index := 0, current := if vals.length = 0 then none else some 0 }
  let p := position vals (fun i x => f i x item) c0
  match p.1 with
  | some q => (insert vals p.2 (q - 1) item, q - 1)
  | none => (item :: vals, 0)

/-- Cursor::insert_after (cursor.rs lines 246 to 268): find the first
element satisfying f by one scan from the head, then insert at the found
position plus one, or at the tail when nothing matched. -/
def insert_after (vals : List α) (item : α) (f : Nat → α → α → Bool) :
    List α × Nat :=
  let c0 : Cursor := { index := 0, current := if vals.length = 0 then none else some 0 }
  let p := position vals (fun i x => f i x item) c0
  match p.1 with
  | some q => (insert vals p.2 (q + 1) item, q + 1)
  | none => (vals ++ [item], vals.length)

end Cursor

end CursorModel

section MultiWaker

namespace MultiWakerRegistrar

/-- Modelled from the spec: the waker list of the registrar is a list of
wake handles, a handle identified by the id of the task it wakes; the
will_wake comparison is equality of these ids.  The IntrusiveList methods
with_lock, any, push_tail and for_each that multi_waker.rs calls are
absent from src; per spec section 4.4, any scans the list once and
for_each visits every element once in list order, and push_tail appends. -/
def register (ws : List Nat) (w : Nat) : List Nat :=
  if ws.any (fun x => x == w) then ws else ws ++ [w]

/-- MultiWakerRegistrar::update (multi_waker.rs lines 51 to 68) for a
registration already linked at position k: when the stored handle would
not wake the same task, it is replaced in place through the guard. -/
def update (ws : List Nat) (k : Nat) (w : Nat) : List Nat :=
  if ws.get? k = some w then ws else ws.set k w

/-- MultiWakerRegistrar::wake (multi_waker.rs lines 70 to 75).  The body is
a single for_each invoking wake_by_ref on every stored handle; nothing is
removed.  First component: the handles invoked, in order; second: the
list after the call. -/
def wake (ws : List Nat) : List Nat × List Nat :=
  (ws, ws)

end MultiWakerRegistrar

end MultiWaker

/-
  Theorems for the claims, with witnesses for the hypothesis-bearing ones.
-/

section Claims

/-- Helper: setting one entry of a pair list to a pair with the same first
component as the entry already there leaves the list of first components
unchanged. -/
theorem map_fst_set {T : Type} (q : List (T × Nat)) (i : Nat) (hi : i < q.length) (c : Nat) :
    (q.set i ((q.get ⟨i, hi⟩).1, c)).map Prod.fst = q.map Prod.fst := by
  induction q generalizing i with
  | nil => simp at hi
  | cons e rest ih =>
      cases i with
      | zero => simp
      | succ j =>
          simp only [List.set, List.map_cons, List.cons.injEq, true_and]
          exact ih j (by simpa using hi)

/-- C1: get_message returns Lagged (start_id - id) below start_id, no
message when the offset is past the queue, and otherwise decrements the
pending count of the entry e at offset id - start_id; exactly when that
entry is the oldest (offset 0) and its count reached zero it pops the
entry, wakes the publishers and returns the original message value without
applying the clone; in every other in-range case it returns a clone and
the queue keeps the same messages and length, with only that one count
decremented. -/
theorem get_message_correct {T : Type} (cl : T → T) (s : PubSubState T) (message_id : Nat)
    (hc : ∀ e ∈ s.queue, 1 ≤ e.2) :
    (message_id < s.next_message_id - s.queue.length →
      PubSubChannel.get_message cl s message_id =
        (some (WaitResult.Lagged (s.next_message_id - s.queue.length - message_id)),
          s, false)) ∧
    (s.next_message_id - s.queue.length ≤ message_id →
      s.queue.length ≤ message_id - (s.next_message_id - s.queue.length) →
      PubSubChannel.get_message cl s message_id = (none, s, false)) ∧
    (∀ (hlt : message_id - (s.next_message_id - s.queue.length) < s.queue.length) (e : T × Nat),
      s.queue.get ⟨message_id - (s.next_message_id - s.queue.length), hlt⟩ = e →
      s.next_message_id - s.queue.length ≤ message_id →
      ((message_id - (s.next_message_id - s.queue.length) = 0 ∧ e.2 = 1) →
        PubSubChannel.get_message cl s message_id =
          (some (WaitResult.Message e.1), { s with queue := s.queue.tail }, true)) ∧
      (¬(message_id - (s.next_message_id - s.queue.length) = 0 ∧ e.2 = 1) →
        PubSubChannel.get_message cl s message_id =
          (some (WaitResult.Message (cl e.1)),
            { s with queue :=
                s.queue.set (message_id - (s.next_message_id - s.queue.length)) (e.1, e.2 - 1) },
            false) ∧
        (s.queue.set (message_id - (s.next_message_id - s.queue.length))
            (e.1, e.2 - 1)).map Prod.fst = s.queue.map Prod.fst ∧
        (s.queue.set (message_id - (s.next_message_id - s.queue.length))
            (e.1, e.2 - 1)).length = s.queue.length)) := by
  refine ⟨?_, ?_, ?_⟩
  · intro h
    simp [PubSubChannel.get_message, h]
  · intro h1 h2
    rw [PubSubChannel.get_message]
    simp only []
    rw [if_neg (by omega), dif_neg (by omega)]
  · intro hlt e he h1
    have hcnt : 1 ≤ e.2 := he ▸ hc _ (List.get_mem _ _ _)
    constructor
    · intro hpop
      rw [PubSubChannel.get_message]
      simp only []
      rw [if_neg (by omega), dif_pos hlt, if_pos (by rw [he]; omega)]
      rw [he]
    · intro hnot
      refine ⟨?_, he ▸ map_fst_set s.queue _ hlt _, by simp⟩
      rw [PubSubChannel.get_message]
      simp only []
      rw [if_neg (by omega), dif_pos hlt, if_neg (by rw [he]; omega)]
      rw [he]

/-- Witness for C1: a channel at message id 1 with one queued message and
two pending readers; the read is in range, the entry is oldest but the
count only drops from 2 to 1, so a clone (here the successor function) is
returned and the count is decremented in place. -/
theorem get_message_correct_witness :
    PubSubChannel.get_message (T := Nat) (fun n => n + 1) ⟨1, 2, 0, [(42, 2)]⟩ 0 =
      (some (WaitResult.Message 43), ⟨1, 2, 0, [(42, 1)]⟩, false) := by
  have h := ((get_message_correct (fun n => n + 1) ⟨1, 2, 0, [(42, 2)]⟩ 0
      (by decide)).2.2 (by decide) (42, 2) (by decide) (by decide)).2 (by decide)
  exact h.1

/-- C2: the claim states that removing a node whose link state is Unlinked
(in particular the removal run by the guard drop for a never-linked or
already-removed Item) is a no-op that does not panic.  The code disagrees:
RawIntrusiveList::remove (raw.rs lines 67 to 75) zeroes the length, drops
the head and tail pointers and then panics — an explicit panic with debug
assertions and the unreachable macro (which also panics) without.  Since
Item::drop (item.rs lines 136 to 141) unconditionally calls remove, any
guard dropped while unlinked hits this branch, so the code also contradicts
its own test (test.rs insert_tail drops the removed v1 at scope exit).
Here: node 7 of the empty list is Unlinked and removing it panics (none). -/
theorem remove_unlinked_node_panics :
    RawIntrusiveList.emptyList.nodes 7 = NodeLinks.Unlinked ∧
    RawIntrusiveList.remove RawIntrusiveList.emptyList 7 = none :=
  ⟨rfl, rfl⟩

/-- C3: try_publish succeeds leaving the queue unchanged when there is no
subscriber, fails returning exactly the rejected message with all state
unchanged when the queue is full and a subscriber exists, and otherwise
pushes (message, subscriber count) at the back, increments the message
counter and wakes the subscriber waiters. -/
theorem try_publish_correct {T : Type} (CAP : Nat) (s : PubSubState T) (message : T) :
    (s.subscriber_count = 0 →
      PubSubChannel.try_publish_unchecked CAP s message = some (Except.ok (), s, false)) ∧
    (s.subscriber_count ≠ 0 → s.queue.length = CAP →
      PubSubChannel.try_publish_unchecked CAP s message =
        some (Except.error message, s, false)) ∧
    (s.subscriber_count ≠ 0 → s.queue.length ≠ CAP →
      PubSubChannel.try_publish_unchecked CAP s message =
        some (Except.ok (),
          { s with queue := s.queue ++ [(message, s.subscriber_count)],
                   next_message_id := s.next_message_id + 1 }, true)) := by
  refine ⟨?_, ?_, ?_⟩
  · intro h
    simp [PubSubChannel.try_publish_unchecked, h]
  · intro h1 h2
    simp [PubSubChannel.try_publish_unchecked, h1, h2]
  · intro h1 h2
    simp [PubSubChannel.try_publish_unchecked, DequeRef.push_back, h1, h2]

/-- Witness for C3: an empty capacity-4 channel with one subscriber
accepts the message 9 and records one pending reader for it. -/
theorem try_publish_correct_witness :
    PubSubChannel.try_publish_unchecked 4 (⟨0, 1, 0, []⟩ : PubSubState Nat) 9 =
      some (Except.ok (), ⟨1, 1, 0, [(9, 1)]⟩, true) := by
  have h := (try_publish_correct 4 (⟨0, 1, 0, []⟩ : PubSubState Nat) 9).2.2
    (by decide) (by decide)
  exact h

/-- C4: the claim states that insert_tail of 1,2,3,4 into an empty list
leaves one doubly-traversable chain 1,2,3,4.  The code disagrees because
NodeRef::set_prev (node.rs line 251) writes the next pointer and
NodeRef::prev (node.rs line 241) reads it: after the four inserts the head
and tail bookkeeping says (1, 4) but following next pointers from the head
for len steps visits 1, 4, 1, 4 — nodes 2 and 3 are unreachable — and
removing the head panics while unstitching. -/
theorem insert_tail_chain_corrupted :
    (c4_state.map fun s => (s.len, s.links)) = some (4, some (1, 4)) ∧
    (c4_state.map fun s => traverseNext s.nodes 1 4) = some [1, 4, 1, 4] ∧
    (c4_state.bind fun s => RawIntrusiveList.remove s 1) = none :=
  ⟨by decide, by decide, rfl⟩

/-- C5: the claim states that seek(index) always lands on the element at
position index when index is in range.  The code disagrees: min_seek
(cursor.rs line 115) labels the walk-from-the-tail candidate as
Head (len - index), so when that candidate wins, seek walks forward from
the head len - index steps.  Here: a list of length 3, cursor at position
0, seek 2 ends at index 1 on the element at position 1, not 2. -/
theorem seek_lands_at_wrong_index :
    Cursor.seek 3 { index := 0, current := some 0 } 2 =
      { index := 1, current := some 1 } :=
  rfl

/-- C6: the claim states that wake() invokes every populated slot once and
removes it, leaving the registrar empty, so a second wake wakes nobody.
The code disagrees: the body of MultiWakerRegistrar::wake (multi_waker.rs
lines 71 to 75) is a single for_each calling wake_by_ref and removes
nothing, contradicting its own doc comment (line 70, "This clears the
buffer").  Here: with one registered handle, after wake() the registrar
still holds it and a second wake() invokes it again. -/
theorem wake_does_not_clear_registrations :
    (MultiWakerRegistrar.wake [7]).2 = [7] ∧
    (MultiWakerRegistrar.wake (MultiWakerRegistrar.wake [7]).2).1 = [7] :=
  ⟨rfl, rfl⟩

/-- C7: registration with an unlinked guard scans once and does nothing if
an entry that would wake the same task exists, else appends at the tail;
so registering the same task twice yields one entry and one wake() yields
exactly one invocation for it; and updating a linked guard replaces the
stored handle in place, never changing the number of entries. -/
theorem register_dedup_single_wake (ws : List Nat) (w : Nat) (hw : w ∉ ws) :
    MultiWakerRegistrar.register ws w = ws ++ [w] ∧
    MultiWakerRegistrar.register (MultiWakerRegistrar.register ws w) w = ws ++ [w] ∧
    (MultiWakerRegistrar.wake
        (MultiWakerRegistrar.register (MultiWakerRegistrar.register ws w) w)).1.count w = 1 ∧
    (∀ k w2, (MultiWakerRegistrar.update ws k w2).length = ws.length) := by
  have h1 : ws.any (fun x => x == w) = false := by
    simp only [List.any_eq_false, beq_iff_eq]
    intro x hx hxw
    exact hw (hxw ▸ hx)
  have h2 : MultiWakerRegistrar.register ws w = ws ++ [w] := by
    simp [MultiWakerRegistrar.register, h1]
  have h3 : MultiWakerRegistrar.register (ws ++ [w]) w = ws ++ [w] := by
    simp [MultiWakerRegistrar.register]
  refine ⟨h2, by rw [h2, h3], ?_, ?_⟩
  · rw [h2, h3]
    simp [MultiWakerRegistrar.wake, List.count_append,
      List.count_eq_zero.mpr hw]
  · intro k w2
    simp only [MultiWakerRegistrar.update]
    split
    · rfl
    · exact List.length_set ws k w2

/-- Witness for C7: task 3 registered twice into a registrar holding only
task 5 produces a single entry for 3 and one wake invocation for it. -/
theorem register_dedup_single_wake_witness :
    MultiWakerRegistrar.register (MultiWakerRegistrar.register [5] 3) 3 = [5, 3] ∧
    (MultiWakerRegistrar.wake
        (MultiWakerRegistrar.register (MultiWakerRegistrar.register [5] 3) 3)).1.count 3 = 1 := by
  have h := register_dedup_single_wake [5] 3 (by decide)
  exact ⟨h.2.1, h.2.2.1⟩

/-- C8: the claim states that insert_before places the item immediately
before the first element matched by the predicate and insert_after places
it immediately after.  The code disagrees: with values 10,20,30,40 and a
predicate matching 30 at position 2, insert_before (cursor.rs line 231
subtracts one from the found position; the walk then lands on the match
and inserts after it) yields 10,20,30,99,40 reporting index 1, while
insert_after yields 10,20,99,30,40 reporting index 3 — each produces the
placement the other promises. -/
theorem insert_before_after_swapped :
    Cursor.insert_before [10, 20, 30, 40] 99 (fun _ x _ => x == 30) =
      ([10, 20, 30, 99, 40], 1) ∧
    Cursor.insert_after [10, 20, 30, 40] 99 (fun _ x _ => x == 30) =
      ([10, 20, 99, 30, 40], 3) :=
  ⟨by decide, by decide⟩

/-- C9: the claim states that unregistering a subscriber decrements the
pending count of every queued message the subscriber had not read,
including all of them when it lagged behind the whole queue.  The code
disagrees: the guard at pubsub/mod.rs line 204 runs the decrement loop only
when the subscriber cursor is at least start_id.  Here: a capacity-1
channel, one subscriber at cursor 0, two publish_immediate calls (41 then
42, the first evicted) put the queue at [(42, 1)] with start_id 1; dropping
the subscriber leaves the count at 1 — not decremented, nothing popped, no
publisher woken — although the subscriber never read message 42. -/
theorem unregister_lagged_subscriber_skips_decrement :
    (((PubSubChannel.publish_immediate 1
          (PubSubChannel.subscriber (PubSubChannel.new (T := Nat))).2 41).bind
        (fun p => PubSubChannel.publish_immediate 1 p.1 42)).map
      (fun p => PubSubChannel.unregister_subscriber p.1
        (PubSubChannel.subscriber (PubSubChannel.new (T := Nat))).1))
    = some ({ next_message_id := 2, subscriber_count := 0, publisher_count := 0,
              queue := [(42, 1)] }, false) := by
  decide

/-- C10: with capacity 0 and at least one subscriber, publish_immediate
panics: the empty queue reports full (len = capacity = 0), the eviction
pop_front returns none freeing nothing, and the unwrap after the unchecked
publish fails because the queue is still full.  Construction itself is
unguarded: a zero-capacity state is built by new with an empty queue. -/
theorem publish_immediate_zero_cap_panics {T : Type} (s : PubSubState T) (message : T)
    (hsub : 1 ≤ s.subscriber_count) (hq : s.queue.length = 0) :
    PubSubChannel.publish_immediate 0 s message = none ∧
    (PubSubChannel.new (T := T)).queue.length = 0 := by
  have hnil : s.queue = [] := List.length_eq_zero.mp hq
  refine ⟨?_, rfl⟩
  simp [PubSubChannel.publish_immediate, PubSubChannel.try_publish_unchecked,
    DequeRef.pop_front, hnil, Nat.ne_of_gt hsub]

/-- Witness for C10: a freshly constructed zero-capacity channel with one
subscriber panics on publish_immediate 42. -/
theorem publish_immediate_zero_cap_panics_witness :
    PubSubChannel.publish_immediate 0
      (PubSubChannel.subscriber (PubSubChannel.new (T := Nat))).2 42 = none := by
  have h := publish_immediate_zero_cap_panics
    (PubSubChannel.subscriber (PubSubChannel.new (T := Nat))).2 42 (by decide) (by decide)
  exact h.1

end Claims
